import Mathlib

/-!
Verification of the flotation dosing control core.

The control components of the repository (PI controller, safety manager,
anomaly detector) appear as Python code in src/.github/copilot-instructions.md;
the dashboard chart buffer is src/dashboard/js/charts.js.  Real-valued program
quantities are embedded as rationals.
-/

namespace Flotation

/-- Semantics of numpy clip for scalars: np.clip(x, lo, hi) = min(max(x, lo), hi). -/
def clip (x lo hi : ℚ) : ℚ := min (max x lo) hi

/-- PI controller state, from class PIController in
src/.github/copilot-instructions.md (pi_controller.py): gains kp and ki, the
target setpoint, and the accumulated integral and last_error. -/
structure PIController where
  kp : ℚ
  ki : ℚ
  setpoint : ℚ
  integral : ℚ
  last_error : ℚ

/-- PIController.update from the source: error = setpoint - measured_value;
integral += error * dt; integral = np.clip(integral, -50, 50);
output = kp * error + ki * integral; return np.clip(output, 0, 100).
The source never reassigns last_error inside update, so it is left unchanged.
Returns the updated state together with the returned duty cycle. -/
def PIController.update (c : PIController) (measured_value dt : ℚ) :
    PIController × ℚ :=
  let error := c.setpoint - measured_value
  let integral := clip (c.integral + error * dt) (-50) 50
  let output := c.kp * error + c.ki * integral
  ({ c with integral := integral }, clip output 0 100)

/-- Runs a sequence of update calls, keeping only the controller state; each
input is a pair of measured_value and dt. -/
def runPI (c : PIController) (inputs : List (ℚ × ℚ)) : PIController :=
  inputs.foldl (fun s p => (s.update p.1 p.2).1) c

theorem clip_le_hi (x lo hi : ℚ) : clip x lo hi ≤ hi :=
  min_le_right _ _

theorem lo_le_clip (x lo hi : ℚ) (h : lo ≤ hi) : lo ≤ clip x lo hi :=
  le_min (le_max_right _ _) h

/-- Claim C3: after every update call with dt greater than 0, in any finite
sequence of such calls, the integral field lies within the integral limits
(-50, 50) hard-coded in the source, and the returned output is computed from
the already-clamped integral (the anti-windup clamp happens before the output
is formed). -/
theorem pi_integral_antiwindup (c : PIController) (pre : List (ℚ × ℚ))
    (m dt : ℚ) (hdt : 0 < dt) (hpre : ∀ p ∈ pre, 0 < p.2) :
    (-50 ≤ ((runPI c pre).update m dt).1.integral ∧
      ((runPI c pre).update m dt).1.integral ≤ 50) ∧
    ((runPI c pre).update m dt).2 =
      clip ((runPI c pre).kp * ((runPI c pre).setpoint - m) +
        (runPI c pre).ki * ((runPI c pre).update m dt).1.integral) 0 100 := by
  refine ⟨⟨?_, ?_⟩, rfl⟩
  · exact lo_le_clip _ _ _ (by norm_num)
  · exact clip_le_hi _ _ _

/-- Witness for pi_integral_antiwindup at a concrete controller and input
sequence. -/
theorem pi_integral_antiwindup_witness :
    ((0:ℚ) < 1) ∧ (∀ p ∈ [((95:ℚ), (1:ℚ))], 0 < p.2) ∧
    ((-50 ≤ ((runPI ⟨1/2, 1/20, 120, 0, 0⟩ [(95, 1)]).update 95 1).1.integral ∧
      ((runPI ⟨1/2, 1/20, 120, 0, 0⟩ [(95, 1)]).update 95 1).1.integral ≤ 50) ∧
    ((runPI ⟨1/2, 1/20, 120, 0, 0⟩ [(95, 1)]).update 95 1).2 =
      clip ((runPI ⟨1/2, 1/20, 120, 0, 0⟩ [(95, 1)]).kp *
          ((runPI ⟨1/2, 1/20, 120, 0, 0⟩ [(95, 1)]).setpoint - 95) +
        (runPI ⟨1/2, 1/20, 120, 0, 0⟩ [(95, 1)]).ki *
          ((runPI ⟨1/2, 1/20, 120, 0, 0⟩ [(95, 1)]).update 95 1).1.integral)
        0 100) :=
  ⟨by norm_num, by intro p hp; simp at hp; rw [hp]; norm_num,
    pi_integral_antiwindup ⟨1/2, 1/20, 120, 0, 0⟩ [(95, 1)] 95 1 (by norm_num)
      (by intro p hp; simp at hp; rw [hp]; norm_num)⟩

/-- Claim C5: scenario A, with setpoint 120, kp 0.5, ki 0.05, integral 0, one
call update(95, 1) gives error 25, sets integral to 25, and returns exactly
0.5 * 25 + 0.05 * 25 = 13.75, which lies inside the interval from 0 to 80 and
is returned unclamped (the clip leaves it unchanged). -/
theorem pi_scenario_a :
    ((⟨1/2, 1/20, 120, 0, 0⟩ : PIController).update 95 1).1.integral = 25 ∧
    ((⟨1/2, 1/20, 120, 0, 0⟩ : PIController).update 95 1).2 = 55/4 ∧
    (55:ℚ)/4 = (1/2) * 25 + (1/20) * 25 ∧
    ((55:ℚ)/4 = (1/2) * (120 - 95) + (1/20) * 25) ∧
    (0:ℚ) ≤ 55/4 ∧ (55:ℚ)/4 ≤ 80 := by
  refine ⟨?_, ?_, by norm_num, by norm_num, by norm_num, by norm_num⟩ <;>
    norm_num [PIController.update, clip]

/-- Modelled from the spec: SafetyState (section 3). The repository source
only sketches the SafetyManager class (src/.github/copilot-instructions.md:
estop_triggered flag, watchdog_timeout of 5 seconds, last_vision_update,
check_watchdog comparing elapsed time against the timeout with a strict
greater-than, and emergency_stop setting the latch); the full contract with
compute_safe_duty, record_measurement, reset and max_duty_cycle is given only
by spec sections 3 and 4.2, so those parts are modelled from the spec. The
spec field name estop_latched is used; timestamps and durations are rationals. -/
structure SafetyState where
  estop_latched : Bool
  last_measurement_at : ℚ
  watchdog_timeout : ℚ
  max_duty_cycle : ℚ

/-- Watchdog check, from the SafetyManager sketch in the source: if the time
since the last measurement strictly exceeds watchdog_timeout, the emergency
stop fires and the latch becomes set; otherwise the state is unchanged. -/
def check_watchdog (s : SafetyState) (now : ℚ) : SafetyState :=
  if now - s.last_measurement_at > s.watchdog_timeout then
    { s with estop_latched := true }
  else s

/-- Modelled from the spec: record_measurement (section 4.2) only resets the
watchdog clock; it does not itself arm or disarm. -/
def record_measurement (s : SafetyState) (t : ℚ) : SafetyState :=
  { s with last_measurement_at := t }

/-- Emergency stop, from the SafetyManager sketch in the source: sets the
sticky latch. -/
def emergency_stop (s : SafetyState) : SafetyState :=
  { s with estop_latched := true }

/-- Modelled from the spec: the explicit reset call (section 4.2) clears the
latch and re-arms the watchdog clock using the current time as the new
baseline. This operation is absent from the source sketch. -/
def reset_estop (s : SafetyState) (now : ℚ) : SafetyState :=
  { s with estop_latched := false, last_measurement_at := now }

/-- Modelled from the spec: compute_safe_duty (section 4.2) returns 0 while
Tripped; while Armed it clamps the request into the interval from 0 to
max_duty_cycle, honouring the hard guarantees of sections 3 and 8 that the
result is never negative and never above max_duty_cycle for any request. -/
def compute_safe_duty (s : SafetyState) (requested : ℚ) : ℚ :=
  if s.estop_latched then 0 else max 0 (min requested s.max_duty_cycle)

/-- Events the Safety Manager can receive between cycles. -/
inductive SMEvent where
  | checkWatchdog (now : ℚ)
  | recordMeasurement (t : ℚ)
  | estop
  | resetCall (now : ℚ)
deriving DecidableEq

/-- Whether an event is the explicit operator reset call. -/
def SMEvent.isReset : SMEvent → Bool
  | .resetCall _ => true
  | _ => false

/-- Modelled from the spec: one Safety Manager transition per received event
(section 4.2). -/
def smStep (s : SafetyState) : SMEvent → SafetyState
  | .checkWatchdog now => check_watchdog s now
  | .recordMeasurement t => record_measurement s t
  | .estop => emergency_stop s
  | .resetCall now => reset_estop s now

theorem smStep_latch (s : SafetyState) (e : SMEvent) (he : e.isReset = false)
    (h : s.estop_latched = true) : (smStep s e).estop_latched = true := by
  cases e with
  | checkWatchdog now =>
    simp only [smStep, check_watchdog]
    split <;> simp [h]
  | recordMeasurement t => exact h
  | estop => rfl
  | resetCall now => simp [SMEvent.isReset] at he

theorem foldl_smStep_latch (es : List SMEvent) (s : SafetyState)
    (hNoReset : ∀ e ∈ es, e.isReset = false) (h : s.estop_latched = true) :
    (es.foldl smStep s).estop_latched = true := by
  induction es generalizing s with
  | nil => exact h
  | cons e es ih =>
    exact ih _ (fun x hx => hNoReset x (List.mem_cons_of_mem _ hx))
      (smStep_latch s e (hNoReset e (List.mem_cons_self _ _)) h)

/-- Claim C1: from an Armed state, once the elapsed time since the last
measurement strictly exceeds the watchdog timeout, the watchdog check trips
the Safety Manager; after that, through any sequence of non-reset events
(further watchdog checks, fresh measurements, further stop signals), the latch
stays set and compute_safe_duty returns 0 for every request. -/
theorem watchdog_trip_latches (s : SafetyState) (now r : ℚ)
    (es : List SMEvent)
    (hArmed : s.estop_latched = false)
    (hTimeout : now - s.last_measurement_at > s.watchdog_timeout)
    (hNoReset : ∀ e ∈ es, e.isReset = false) :
    (check_watchdog s now).estop_latched = true ∧
    (es.foldl smStep (check_watchdog s now)).estop_latched = true ∧
    compute_safe_duty (es.foldl smStep (check_watchdog s now)) r = 0 := by
  have h1 : (check_watchdog s now).estop_latched = true := by
    simp [check_watchdog, if_pos hTimeout]
  have h2 := foldl_smStep_latch es _ hNoReset h1
  exact ⟨h1, h2, by simp [compute_safe_duty, h2]⟩

/-- Witness for watchdog_trip_latches: armed state with baseline 0 and
timeout 5, checked at time 6, then a fresh measurement and another stop. -/
theorem watchdog_trip_latches_witness :
    ((⟨false, 0, 5, 80⟩ : SafetyState).estop_latched = false) ∧
    ((6:ℚ) - (⟨false, 0, 5, 80⟩ : SafetyState).last_measurement_at >
      (⟨false, 0, 5, 80⟩ : SafetyState).watchdog_timeout) ∧
    ((check_watchdog ⟨false, 0, 5, 80⟩ 6).estop_latched = true ∧
      (([SMEvent.recordMeasurement 7, SMEvent.estop]).foldl smStep
        (check_watchdog ⟨false, 0, 5, 80⟩ 6)).estop_latched = true ∧
      compute_safe_duty (([SMEvent.recordMeasurement 7, SMEvent.estop]).foldl
        smStep (check_watchdog ⟨false, 0, 5, 80⟩ 6)) (-3) = 0) :=
  ⟨rfl, by norm_num,
    watchdog_trip_latches ⟨false, 0, 5, 80⟩ 6 (-3)
      [SMEvent.recordMeasurement 7, SMEvent.estop] rfl (by norm_num)
      (by intro e he; simp only [List.mem_cons, List.not_mem_nil, or_false] at he
          rcases he with he | he <;> subst he <;> rfl)⟩

/-- Counterexample to claim C2 as stated: in the Armed state with
max_duty_cycle 80, compute_safe_duty(-5) is 0 (the choke point never emits a
negative duty), not min(-5, 80) = -5 as the claimed Armed formula would give. -/
theorem safe_duty_min_counterexample :
    (⟨false, 0, 5, 80⟩ : SafetyState).estop_latched = false ∧
    compute_safe_duty ⟨false, 0, 5, 80⟩ (-5) ≠
      min (-5) (⟨false, 0, 5, 80⟩ : SafetyState).max_duty_cycle := by
  refine ⟨rfl, ?_⟩
  norm_num [compute_safe_duty]

/-- Claim C2 (amended): for every state with a non-negative max_duty_cycle and
every request, compute_safe_duty stays between 0 and max_duty_cycle; while
Armed it returns the clamp of the request into that interval, which agrees
with min(requested, max_duty_cycle) whenever the request is non-negative. -/
theorem safe_duty_bounded (s : SafetyState) (r : ℚ)
    (hmax : 0 ≤ s.max_duty_cycle) :
    (0 ≤ compute_safe_duty s r ∧ compute_safe_duty s r ≤ s.max_duty_cycle) ∧
    (s.estop_latched = false →
      compute_safe_duty s r = max 0 (min r s.max_duty_cycle)) ∧
    (s.estop_latched = false → 0 ≤ r →
      compute_safe_duty s r = min r s.max_duty_cycle) := by
  cases h : s.estop_latched with
  | true =>
    refine ⟨⟨?_, ?_⟩, fun hc => absurd hc (by simp),
      fun hc _ => absurd hc (by simp)⟩
    · simp [compute_safe_duty, h]
    · simp only [compute_safe_duty, h, if_true]; exact hmax
  | false =>
    have hfi : compute_safe_duty s r = max 0 (min r s.max_duty_cycle) := by
      simp [compute_safe_duty, h]
    refine ⟨⟨?_, ?_⟩, fun _ => hfi, fun _ hr => ?_⟩
    · rw [hfi]; exact le_max_left _ _
    · rw [hfi]; exact max_le hmax (min_le_right _ _)
    · rw [hfi]; exact max_eq_right (le_min hr hmax)

/-- Witness for safe_duty_bounded at a concrete armed state and request. -/
theorem safe_duty_bounded_witness :
    ((0:ℚ) ≤ (⟨false, 0, 5, 80⟩ : SafetyState).max_duty_cycle) ∧
    ((0 ≤ compute_safe_duty ⟨false, 0, 5, 80⟩ 30 ∧
      compute_safe_duty ⟨false, 0, 5, 80⟩ 30 ≤
        (⟨false, 0, 5, 80⟩ : SafetyState).max_duty_cycle) ∧
    ((⟨false, 0, 5, 80⟩ : SafetyState).estop_latched = false →
      compute_safe_duty ⟨false, 0, 5, 80⟩ 30 =
        max 0 (min 30 (⟨false, 0, 5, 80⟩ : SafetyState).max_duty_cycle)) ∧
    ((⟨false, 0, 5, 80⟩ : SafetyState).estop_latched = false → (0:ℚ) ≤ 30 →
      compute_safe_duty ⟨false, 0, 5, 80⟩ 30 =
        min 30 (⟨false, 0, 5, 80⟩ : SafetyState).max_duty_cycle)) :=
  ⟨by norm_num, safe_duty_bounded ⟨false, 0, 5, 80⟩ 30 (by norm_num)⟩

/-- Claim C8: the reset call clears the latch and re-arms the watchdog with
the reset time as the new baseline, so a watchdog check run at the reset time
itself does not re-trip (given a non-negative timeout); and the only event
that can take a Tripped state back to Armed is a reset call. -/
theorem reset_rearms_baseline (s : SafetyState) (t : ℚ) (e : SMEvent)
    (hTripped : s.estop_latched = true)
    (hCleared : (smStep s e).estop_latched = false)
    (hTimeout : 0 ≤ s.watchdog_timeout) :
    (reset_estop s t).estop_latched = false ∧
    (reset_estop s t).last_measurement_at = t ∧
    (check_watchdog (reset_estop s t) t).estop_latched = false ∧
    ∃ t0, e = SMEvent.resetCall t0 := by
  refine ⟨rfl, rfl, ?_, ?_⟩
  · simp only [check_watchdog, reset_estop]
    rw [if_neg (by simp; linarith)]
  · cases e with
    | checkWatchdog now =>
      exfalso
      have := smStep_latch s (.checkWatchdog now) rfl hTripped
      rw [hCleared] at this
      exact Bool.false_ne_true this
    | recordMeasurement t1 =>
      exfalso
      have := smStep_latch s (.recordMeasurement t1) rfl hTripped
      rw [hCleared] at this
      exact Bool.false_ne_true this
    | estop =>
      exfalso
      have := smStep_latch s .estop rfl hTripped
      rw [hCleared] at this
      exact Bool.false_ne_true this
    | resetCall t0 => exact ⟨t0, rfl⟩

/-- Witness for reset_rearms_baseline: a tripped state reset at time 10. -/
theorem reset_rearms_baseline_witness :
    ((⟨true, 0, 5, 80⟩ : SafetyState).estop_latched = true) ∧
    ((smStep ⟨true, 0, 5, 80⟩ (SMEvent.resetCall 3)).estop_latched = false) ∧
    ((0:ℚ) ≤ (⟨true, 0, 5, 80⟩ : SafetyState).watchdog_timeout) ∧
    ((reset_estop ⟨true, 0, 5, 80⟩ 10).estop_latched = false ∧
      (reset_estop ⟨true, 0, 5, 80⟩ 10).last_measurement_at = 10 ∧
      (check_watchdog (reset_estop ⟨true, 0, 5, 80⟩ 10) 10).estop_latched =
        false ∧
      ∃ t0, SMEvent.resetCall (3:ℚ) = SMEvent.resetCall t0) :=
  ⟨rfl, rfl, by norm_num,
    reset_rearms_baseline ⟨true, 0, 5, 80⟩ 10 (SMEvent.resetCall 3) rfl rfl
      (by norm_num)⟩

/-- Froth anomaly detector, from class FrothAnomalyDetector in
src/.github/copilot-instructions.md (anomaly_detector.py): an is_trained flag
and a black-box classifier on a feature vector, returning 1 for normal and -1
for anomaly. The classifier internals are out of scope, so the model field is
an arbitrary function. -/
structure FrothAnomalyDetector where
  is_trained : Bool
  model : List ℚ → Int

/-- FrothAnomalyDetector.predict from the source: if not is_trained, return 1
(normal until trained); otherwise consult the trained classifier. -/
def FrothAnomalyDetector.predict (d : FrothAnomalyDetector)
    (features : List ℚ) : Int :=
  if d.is_trained then d.model features else 1

/-- Claim C6: while the classifier has not been trained, predict returns the
normal classification (the value 1) for every feature window, including the
empty one, whatever the underlying model would have said. -/
theorem predict_normal_until_trained (d : FrothAnomalyDetector)
    (features : List ℚ) (h : d.is_trained = false) :
    d.predict features = 1 := by
  simp [FrothAnomalyDetector.predict, h]

/-- Witness for predict_normal_until_trained: an untrained detector whose
underlying model would report anomaly, with an empty window. -/
theorem predict_normal_until_trained_witness :
    ((⟨false, fun _ => -1⟩ : FrothAnomalyDetector).is_trained = false) ∧
    (⟨false, fun _ => -1⟩ : FrothAnomalyDetector).predict [] = 1 :=
  ⟨rfl, predict_normal_until_trained ⟨false, fun _ => -1⟩ [] rfl⟩

/-- Modelled from the spec: ControllerState (section 3) with configurable
output_limits and integral_limits. The controller code in the source
(src/.github/copilot-instructions.md) hard-codes its limits, so the
configurable-limit controller of spec sections 3 and 4.1 is modelled from the
spec. -/
structure ControllerState where
  setpoint : ℚ
  kp : ℚ
  ki : ℚ
  integral : ℚ
  last_error : ℚ
  out_lo : ℚ
  out_hi : ℚ
  int_lo : ℚ
  int_hi : ℚ

/-- Modelled from the spec: the update algorithm of section 4.1.
error = setpoint - measured_value; integral accumulates error * dt and is
clamped into integral_limits before the output is computed;
output = kp * error + ki * integral, clamped into output_limits. State
(integral and last_error) is updated exactly once per call. -/
def ControllerState.update (c : ControllerState) (measured_value dt : ℚ) :
    ControllerState × ℚ :=
  let error := c.setpoint - measured_value
  let integral := clip (c.integral + error * dt) c.int_lo c.int_hi
  let output := clip (c.kp * error + c.ki * integral) c.out_lo c.out_hi
  ({ c with integral := integral, last_error := error }, output)

/-- Modelled from the spec: a valid configuration (sections 3 and 4.1) has
kp at least 0, ki at least 0, setpoint greater than 0, and non-inverted output
limits with 0 at most the lower limit and the lower limit below the upper. -/
def validConfig (c : ControllerState) : Prop :=
  0 ≤ c.kp ∧ 0 ≤ c.ki ∧ 0 < c.setpoint ∧ 0 ≤ c.out_lo ∧ c.out_lo < c.out_hi

/-- Runs a sequence of update calls on the configurable controller. -/
def runCS (c : ControllerState) (inputs : List (ℚ × ℚ)) : ControllerState :=
  inputs.foldl (fun s p => (s.update p.1 p.2).1) c

theorem runCS_limits (c : ControllerState) (inputs : List (ℚ × ℚ)) :
    (runCS c inputs).out_lo = c.out_lo ∧ (runCS c inputs).out_hi = c.out_hi := by
  induction inputs generalizing c with
  | nil => exact ⟨rfl, rfl⟩
  | cons p ps ih => exact ih ((c.update p.1 p.2).1)

/-- Claim C4: for every validly configured controller and every finite
sequence of update calls with positive dt, the duty value returned by each
call lies within the configured output limits. -/
theorem pi_output_within_limits (c : ControllerState) (pre : List (ℚ × ℚ))
    (m dt : ℚ) (hValid : validConfig c) (hdt : 0 < dt)
    (hpre : ∀ p ∈ pre, 0 < p.2) :
    c.out_lo ≤ ((runCS c pre).update m dt).2 ∧
    ((runCS c pre).update m dt).2 ≤ c.out_hi := by
  have hlim := runCS_limits c pre
  have hle : c.out_lo ≤ c.out_hi := le_of_lt hValid.2.2.2.2
  constructor
  · rw [← hlim.1]
    exact lo_le_clip _ _ _ (by rw [hlim.1, hlim.2]; exact hle)
  · rw [← hlim.2]
    exact clip_le_hi _ _ _

/-- Witness for pi_output_within_limits: the configuration of
config/control_config.json (setpoint 120, kp 0.5, ki 0.05, output limits 0 to
80) with integral limits -50 to 50, after one earlier call. -/
theorem pi_output_within_limits_witness :
    validConfig ⟨120, 1/2, 1/20, 0, 0, 0, 80, -50, 50⟩ ∧
    ((0:ℚ) < 1) ∧ (∀ p ∈ [((95:ℚ), (1:ℚ))], 0 < p.2) ∧
    ((⟨120, 1/2, 1/20, 0, 0, 0, 80, -50, 50⟩ : ControllerState).out_lo ≤
      ((runCS ⟨120, 1/2, 1/20, 0, 0, 0, 80, -50, 50⟩ [(95, 1)]).update 95 1).2 ∧
    ((runCS ⟨120, 1/2, 1/20, 0, 0, 0, 80, -50, 50⟩ [(95, 1)]).update 95 1).2 ≤
      (⟨120, 1/2, 1/20, 0, 0, 0, 80, -50, 50⟩ : ControllerState).out_hi) :=
  ⟨⟨by norm_num, by norm_num, by norm_num, by norm_num, by norm_num⟩,
    by norm_num, by intro p hp; simp at hp; rw [hp]; norm_num,
    pi_output_within_limits ⟨120, 1/2, 1/20, 0, 0, 0, 80, -50, 50⟩ [(95, 1)]
      95 1 ⟨by norm_num, by norm_num, by norm_num, by norm_num, by norm_num⟩
      (by norm_num) (by intro p hp; simp at hp; rw [hp]; norm_num)⟩

/-- Anomaly verdict classifications, from spec section 3. -/
inductive Verdict where
  | normal
  | warning
  | critical
deriving DecidableEq

/-- Orchestrator operating mode, from spec section 4.4. -/
inductive Mode where
  | manual
  | auto
deriving DecidableEq

/-- Modelled from the spec: the Control Orchestrator state (section 4.4): the
mode, the Safety Manager state, the PI controller state, the last dispatched
duty cycle, and the operator-set manual duty. -/
structure OrchestratorState where
  mode : Mode
  safety : SafetyState
  controller : PIController
  last_duty : ℚ
  manual_duty : ℚ

/-- Modelled from the spec: one Orchestrator cycle (section 4.4). meas is the
measurement received this cycle as a pair of measured value and capture
timestamp, or none on receive timeout; verdict is the Anomaly Gate result for
the rolling window. A received measurement is recorded with the Safety
Manager; the watchdog check runs; in Manual mode the operator duty is
forwarded through compute_safe_duty; in Auto mode the PI controller runs
unless the verdict is critical or no measurement arrived, in which case the
last dispatched duty is reused as the request; the request always passes
through compute_safe_duty and the result is dispatched and remembered. -/
def cycle (o : OrchestratorState) (meas : Option (ℚ × ℚ)) (now dt : ℚ)
    (verdict : Verdict) : OrchestratorState × ℚ :=
  let s1 := match meas with
    | some mv => record_measurement o.safety mv.2
    | none => o.safety
  let s2 := check_watchdog s1 now
  match o.mode with
  | Mode.manual =>
    let d := compute_safe_duty s2 o.manual_duty
    ({ o with safety := s2, last_duty := d }, d)
  | Mode.auto =>
    let cr : PIController × ℚ :=
      match meas with
      | none => (o.controller, o.last_duty)
      | some mv =>
        match verdict with
        | Verdict.critical => (o.controller, o.last_duty)
        | _ => o.controller.update mv.1 dt
    let d := compute_safe_duty s2 cr.2
    ({ o with safety := s2, controller := cr.1, last_duty := d }, d)

theorem compute_safe_duty_id (s : SafetyState) (r : ℚ)
    (h : s.estop_latched = false) (h0 : 0 ≤ r) (h1 : r ≤ s.max_duty_cycle) :
    compute_safe_duty s r = r := by
  simp [compute_safe_duty, h, min_eq_left h1, max_eq_right h0]

/-- Claim C7: in Auto mode, when the Anomaly Gate verdict is critical and the
cycle itself does not trip the watchdog, the dispatched duty is exactly the
previous final duty (which is within the safe range), the PI controller state
is not advanced, the Safety Manager remains Armed, and the safety state after
the cycle is the same whatever the verdict was, so a critical verdict can
never be the cause of a trip. -/
theorem critical_holds_previous_duty (o : OrchestratorState)
    (meas : Option (ℚ × ℚ)) (now dt : ℚ)
    (hAuto : o.mode = Mode.auto)
    (hArmed : o.safety.estop_latched = false)
    (hFresh : ¬ now - (match meas with
        | some mv => record_measurement o.safety mv.2
        | none => o.safety).last_measurement_at > o.safety.watchdog_timeout)
    (hLo : 0 ≤ o.last_duty) (hHi : o.last_duty ≤ o.safety.max_duty_cycle) :
    (cycle o meas now dt Verdict.critical).2 = o.last_duty ∧
    (cycle o meas now dt Verdict.critical).1.controller = o.controller ∧
    (cycle o meas now dt Verdict.critical).1.safety.estop_latched = false ∧
    ∀ v, (cycle o meas now dt v).1.safety =
      (cycle o meas now dt Verdict.critical).1.safety := by
  have hverdict : ∀ v, (cycle o meas now dt v).1.safety =
      (cycle o meas now dt Verdict.critical).1.safety := by
    intro v
    cases meas <;> cases hm : o.mode <;> cases v <;> simp [cycle, hm]
  refine ⟨?_, ?_, ?_, hverdict⟩
  · cases meas with
    | none =>
      have hs2 : check_watchdog o.safety now = o.safety := if_neg hFresh
      simp only [cycle, hAuto]
      rw [hs2]
      exact compute_safe_duty_id o.safety o.last_duty hArmed hLo hHi
    | some mv =>
      have hs2 : check_watchdog (record_measurement o.safety mv.2) now =
          record_measurement o.safety mv.2 := if_neg hFresh
      simp only [cycle, hAuto]
      rw [hs2]
      exact compute_safe_duty_id (record_measurement o.safety mv.2)
        o.last_duty hArmed hLo hHi
  · cases meas <;> simp [cycle, hAuto]
  · cases meas with
    | none =>
      have hs2 : check_watchdog o.safety now = o.safety := if_neg hFresh
      simp only [cycle, hAuto]
      rw [hs2]
      exact hArmed
    | some mv =>
      have hs2 : check_watchdog (record_measurement o.safety mv.2) now =
          record_measurement o.safety mv.2 := if_neg hFresh
      simp only [cycle, hAuto]
      rw [hs2]
      exact hArmed

/-- Witness for critical_holds_previous_duty: Auto mode, armed safety state,
a fresh measurement at time 2 checked at time 3, previous duty 30. -/
theorem critical_holds_previous_duty_witness :
    ((⟨Mode.auto, ⟨false, 0, 5, 80⟩, ⟨1/2, 1/20, 120, 0, 0⟩, 30, 0⟩ :
      OrchestratorState).mode = Mode.auto) ∧
    ((cycle ⟨Mode.auto, ⟨false, 0, 5, 80⟩, ⟨1/2, 1/20, 120, 0, 0⟩, 30, 0⟩
        (some (95, 2)) 3 1 Verdict.critical).2 = 30 ∧
      (cycle ⟨Mode.auto, ⟨false, 0, 5, 80⟩, ⟨1/2, 1/20, 120, 0, 0⟩, 30, 0⟩
        (some (95, 2)) 3 1 Verdict.critical).1.controller =
          ⟨1/2, 1/20, 120, 0, 0⟩ ∧
      (cycle ⟨Mode.auto, ⟨false, 0, 5, 80⟩, ⟨1/2, 1/20, 120, 0, 0⟩, 30, 0⟩
        (some (95, 2)) 3 1 Verdict.critical).1.safety.estop_latched = false ∧
      ∀ v, (cycle ⟨Mode.auto, ⟨false, 0, 5, 80⟩, ⟨1/2, 1/20, 120, 0, 0⟩, 30, 0⟩
          (some (95, 2)) 3 1 v).1.safety =
        (cycle ⟨Mode.auto, ⟨false, 0, 5, 80⟩, ⟨1/2, 1/20, 120, 0, 0⟩, 30, 0⟩
          (some (95, 2)) 3 1 Verdict.critical).1.safety) :=
  ⟨rfl,
    critical_holds_previous_duty
      ⟨Mode.auto, ⟨false, 0, 5, 80⟩, ⟨1/2, 1/20, 120, 0, 0⟩, 30, 0⟩
      (some (95, 2)) 3 1 rfl rfl (by norm_num [record_measurement])
      (by norm_num) (by norm_num)⟩

/-- CHART_MAX_POINTS from src/dashboard/js/charts.js line 12: 60 data points
for the time series. -/
def CHART_MAX_POINTS : Nat := 60

/-- addDataPoint from src/dashboard/js/charts.js: push the value onto the
array, then, to maintain the circular buffer, shift off the oldest element if
the length exceeds CHART_MAX_POINTS. -/
def addDataPoint {α : Type} (array : List α) (value : α) : List α :=
  if (array ++ [value]).length > CHART_MAX_POINTS then (array ++ [value]).tail
  else array ++ [value]

theorem addDataPoint_length_le {α : Type} (a : List α) (v : α)
    (h : a.length ≤ CHART_MAX_POINTS) :
    (addDataPoint a v).length ≤ CHART_MAX_POINTS := by
  unfold addDataPoint
  split
  · next hgt =>
    rw [List.length_tail, List.length_append]
    simp only [List.length_singleton]
    omega
  · next hle => omega

theorem foldl_addDataPoint_length {α : Type} (vs : List α) (a : List α)
    (h : a.length ≤ CHART_MAX_POINTS) :
    (vs.foldl addDataPoint a).length ≤ CHART_MAX_POINTS := by
  induction vs generalizing a with
  | nil => exact h
  | cons v vs ih => exact ih _ (addDataPoint_length_le a v h)

/-- Claim C9: a time-series array built from empty by addDataPoint calls never
grows beyond CHART_MAX_POINTS = 60 entries; and when the array is at capacity,
addDataPoint removes exactly the oldest element, keeping the remaining
elements in their original relative order with the new value at the end. -/
theorem chart_buffer_drop_oldest {α : Type} (vs : List α) (a : List α) (v : α)
    (hFull : a.length = CHART_MAX_POINTS) :
    (vs.foldl addDataPoint ([] : List α)).length ≤ CHART_MAX_POINTS ∧
    addDataPoint a v = a.tail ++ [v] := by
  constructor
  · exact foldl_addDataPoint_length vs [] (by simp [CHART_MAX_POINTS])
  · unfold addDataPoint
    rw [if_pos (by rw [List.length_append]; simp [hFull])]
    cases a with
    | nil => simp [CHART_MAX_POINTS] at hFull
    | cons x xs => rw [List.cons_append, List.tail_cons, List.tail_cons]

/-- Witness for chart_buffer_drop_oldest: a full buffer of sixty zeros, a new
value 7, and a three-element update sequence. -/
theorem chart_buffer_drop_oldest_witness :
    (List.replicate 60 (0:ℚ)).length = CHART_MAX_POINTS ∧
    (([1, 2, 3] : List ℚ).foldl addDataPoint []).length ≤ CHART_MAX_POINTS ∧
    addDataPoint (List.replicate 60 (0:ℚ)) 7 =
      (List.replicate 60 (0:ℚ)).tail ++ [7] :=
  ⟨by simp [CHART_MAX_POINTS],
    (chart_buffer_drop_oldest [1, 2, 3] (List.replicate 60 (0:ℚ)) 7
      (by simp [CHART_MAX_POINTS])).1,
    (chart_buffer_drop_oldest ([] : List ℚ) (List.replicate 60 (0:ℚ)) 7
      (by simp [CHART_MAX_POINTS])).2⟩

/-- Pump-activity reagent update from updateChartsData in
src/dashboard/js/charts.js: flowRate = pump_duty_cycle * 0.1 (mL/min);
lastConsumption is the last element of the series, or 0 when empty;
newConsumption = lastConsumption + flowRate / 60 (per second), appended with
addDataPoint. -/
def updateReagentConsumption (a : List ℚ) (duty : ℚ) : List ℚ :=
  addDataPoint a ((a.getLast?).getD 0 + duty * (1/10) / 60)

theorem addDataPoint_chain_le (a : List ℚ) (v : ℚ)
    (hc : List.Chain' (· ≤ ·) a) (hv : ∀ x ∈ a.getLast?, x ≤ v) :
    List.Chain' (· ≤ ·) (addDataPoint a v) := by
  have h1 : List.Chain' (· ≤ ·) (a ++ [v]) := by
    rw [List.chain'_append]
    refine ⟨hc, List.chain'_singleton v, fun x hx y hy => ?_⟩
    simp only [List.head?_cons, Option.mem_def, Option.some.injEq] at hy
    rw [← hy]
    exact hv x hx
  unfold addDataPoint
  split
  · exact h1.tail
  · exact h1

theorem addDataPoint_getLast {α : Type} (a : List α) (v : α) :
    (addDataPoint a v).getLast? = some v := by
  unfold addDataPoint
  split
  · next hgt =>
    cases a with
    | nil => simp [CHART_MAX_POINTS] at hgt
    | cons x xs =>
      rw [List.cons_append, List.tail_cons, List.getLast?_concat]
  · rw [List.getLast?_concat]

theorem foldl_reagent_chain (duties : List ℚ) (a : List ℚ)
    (hNonneg : ∀ x ∈ duties, 0 ≤ x) (hc : List.Chain' (· ≤ ·) a) :
    List.Chain' (· ≤ ·) (duties.foldl updateReagentConsumption a) := by
  induction duties generalizing a with
  | nil => exact hc
  | cons d ds ih =>
    apply ih _ (fun x hx => hNonneg x (List.mem_cons_of_mem _ hx))
    apply addDataPoint_chain_le _ _ hc
    intro x hx
    rw [Option.mem_def] at hx
    rw [hx, Option.getD_some]
    have hd : (0:ℚ) ≤ d := hNonneg d (List.mem_cons_self _ _)
    have : (0:ℚ) ≤ d * (1/10) / 60 :=
      div_nonneg (mul_nonneg hd (by norm_num)) (by norm_num)
    linarith

/-- Claim C10: when every supplied pump duty cycle is non-negative, the
reagent consumption series built by updateChartsData is monotonically
non-decreasing; each call appends exactly the previous last value plus
duty * 0.1 / 60, an increment that is non-negative. -/
theorem reagent_consumption_monotone (duties : List ℚ) (a : List ℚ) (d : ℚ)
    (hNonneg : ∀ x ∈ duties, 0 ≤ x) (hd : 0 ≤ d) :
    List.Chain' (· ≤ ·) (duties.foldl updateReagentConsumption []) ∧
    (updateReagentConsumption a d).getLast? =
      some ((a.getLast?).getD 0 + d * (1/10) / 60) ∧
    (a.getLast?).getD 0 ≤ (a.getLast?).getD 0 + d * (1/10) / 60 := by
  refine ⟨foldl_reagent_chain duties [] hNonneg List.chain'_nil,
    addDataPoint_getLast a _, ?_⟩
  have : (0:ℚ) ≤ d * (1/10) / 60 :=
    div_nonneg (mul_nonneg hd (by norm_num)) (by norm_num)
  linarith

/-- Witness for reagent_consumption_monotone: duties 20 and 50, then one
further update with duty 30 on the resulting two-point series. -/
theorem reagent_consumption_monotone_witness :
    (∀ x ∈ ([20, 50] : List ℚ), 0 ≤ x) ∧ ((0:ℚ) ≤ 30) ∧
    (List.Chain' (· ≤ ·) (([20, 50] : List ℚ).foldl
      updateReagentConsumption []) ∧
    (updateReagentConsumption [(1:ℚ)/30, 2/15] 30).getLast? =
      some ((([(1:ℚ)/30, 2/15]).getLast?).getD 0 + 30 * (1/10) / 60) ∧
    (([(1:ℚ)/30, 2/15]).getLast?).getD 0 ≤
      (([(1:ℚ)/30, 2/15]).getLast?).getD 0 + 30 * (1/10) / 60) :=
  ⟨by intro x hx; simp at hx; rcases hx with hx | hx <;> rw [hx] <;> norm_num,
    by norm_num,
    reagent_consumption_monotone [20, 50] [(1:ℚ)/30, 2/15] 30
      (by intro x hx; simp at hx
          rcases hx with hx | hx <;> rw [hx] <;> norm_num)
      (by norm_num)⟩

end Flotation
